import Mathlib

/-!
Verification of `wialon_geocercas.py` against its design specification.

The Python module is shallowly embedded: floats are modelled as rationals,
Python `dict.get` results as `Option`, Python truthiness by explicit
`truthy*` helpers, and the network (requests/responses of the remote Wialon
platform) as explicit response values passed in as arguments.  `HTTPException`
is modelled by the `HErr` structure (status code plus detail string).
-/

namespace Wialon

/-- A `{lat, lon}` point, as produced by the normalizer (floats as `ℚ`). -/
structure Pt where
  lat : ℚ
  lon : ℚ
deriving DecidableEq, Repr

/-- A legacy `{x, y}` object (e.g. the `ct` field of a raw zone). -/
structure XY where
  x : ℚ
  y : ℚ
deriving DecidableEq, Repr

/-- One entry of the legacy flat point list `z["p"]`: either a dict `{x, y}`
or a pair `[x, y]` (the two shapes accepted by `geofences_of_resource`). -/
inductive LegacyPt where
  | xy (x y : ℚ)
  | pair (x y : ℚ)
deriving DecidableEq, Repr

/-- Python truthiness of an optional string (`None` and `""` are falsy). -/
def truthyS : Option String → Bool
  | none => false
  | some s => decide (s ≠ "")

/-- Python truthiness of an optional integer (`None` and `0` are falsy). -/
def truthyI : Option Int → Bool
  | none => false
  | some v => decide (v ≠ 0)

/-- Python truthiness of an optional number (`None` and `0` are falsy). -/
def truthyQ : Option ℚ → Bool
  | none => false
  | some q => decide (q ≠ 0)

/-- Python truthiness of an optional list (`None` and `[]` are falsy). -/
def truthyList {α : Type} : Option (List α) → Bool
  | none => false
  | some l => !l.isEmpty

/-- Python `a or b` on optional integers: `b` when `a` is falsy. -/
def pyOrI (a b : Option Int) : Option Int :=
  if truthyI a then a else b

/-- Python `a or b` on optional strings: `b` when `a` is falsy. -/
def pyOrS (a b : Option String) : Option String :=
  if truthyS a then a else b

/-- The `jp` sub-object of a raw zone (`z["jp"]`), fields as used by
`geofences_of_resource`: `points`, `center`, `radius`, `color_argb`. -/
structure RawJp where
  points : Option (List Pt)
  center : Option Pt
  radius : Option ℚ
  colorArgb : Option Int
deriving DecidableEq, Repr

/-- A raw zone object of the `resource/get_zone_data` response, restricted to
the fields `geofences_of_resource` reads: `id`, `i`, `n`, `name`, `t`, `c`,
`jp`, `p`, `ct`, `r`. -/
structure RawZone where
  id : Option Int
  i : Option Int
  n : Option String
  name : Option String
  t : Option Int
  c : Option Int
  jp : Option RawJp
  p : Option (List LegacyPt)
  ct : Option XY
  r : Option ℚ
deriving DecidableEq, Repr

/-- Model of `jp = z.get("jp") or {}`: an absent `jp` behaves as an empty dict
(all sub-fields absent). -/
def jpOf (z : RawZone) : RawJp :=
  z.jp.getD ⟨none, none, none, none⟩

/-- A normalized zone item as built by `geofences_of_resource`. -/
structure Zone where
  id : Option Int
  name : String
  type : Option Int
  colorArgb : Option Int
  points : Option (List Pt)
  center : Option Pt
  radius : Option ℚ
deriving DecidableEq, Repr

/-- A legacy point `{x, y}` or `[x, y]` becomes `{lat: y, lon: x}`
(lines 282-286: `{"lat": float(p["y"]), "lon": float(p["x"])}` resp.
`{"lat": float(p[1]), "lon": float(p[0])}`). -/
def legacyToPt : LegacyPt → Pt
  | .xy x y => ⟨y, x⟩
  | .pair x y => ⟨y, x⟩

/-- The per-zone body of the loop in `geofences_of_resource` (lines 259-299).
Every Python `if cond:` on a `dict.get` result is a truthiness test: an
absent key, an empty list, an empty dict, and the number `0` are all falsy.
A present `center`/`ct` dict is nonempty, hence truthy, so `Option.isSome`
models its truthiness. -/
def normalizeZone (z : RawZone) : Zone :=
  let jp := jpOf z
  -- name = z.get("n") or z.get("name") or ""
  let nm := (pyOrS (pyOrS z.n z.name) (some "")).getD ""
  -- 1) polygon: nested `jp["points"]` preferred, else legacy flat `z["p"]`
  let pts : Option (List Pt) :=
    if truthyList jp.points then
      some ((jp.points.getD []).map fun p => (⟨p.lat, p.lon⟩ : Pt))
    else if truthyList z.p then
      some ((z.p.getD []).map legacyToPt)
    else none
  -- 2) circle: nested `jp["center"]`/`jp["radius"]` preferred, else `ct`/`r`
  let cr : Option Pt × Option ℚ :=
    if jp.center.isSome && truthyQ jp.radius then
      (some (jp.center.getD ⟨0, 0⟩), some (jp.radius.getD 0))
    else if z.ct.isSome && truthyQ z.r then
      (some (⟨(z.ct.getD ⟨0, 0⟩).y, (z.ct.getD ⟨0, 0⟩).x⟩ : Pt), some (z.r.getD 0))
    else (none, none)
  { id := pyOrI z.id z.i
    name := nm
    type := z.t
    colorArgb := pyOrI z.c jp.colorArgb
    points := pts
    center := cr.1
    radius := cr.2 }

/-- The edge test of `_point_in_polygon` for one edge, with `a = ring[i]`
(the current vertex, `xi, yi`) and `b = ring[j]` (the previous vertex,
`xj, yj`):

`((yi > lat) != (yj > lat)) and (lon < (xj-xi)*(lat-yi)/((yj-yi) or 1e-12) + xi)`

Python `(yj - yi) or 1e-12` yields `1e-12` exactly when `yj - yi` is zero. -/
def edgeCross (lat lon : ℚ) (a b : Pt) : Bool :=
  (decide (a.lat > lat) != decide (b.lat > lat)) &&
    decide (lon <
      (b.lon - a.lon) * (lat - a.lat) /
          (if b.lat - a.lat = 0 then (1 : ℚ) / 1000000000000 else b.lat - a.lat) +
        a.lon)

/-- The edge list of the ray-casting loop: for `i` in `0..n-1` the pair
`(ring[i], ring[(i-1) % n])`.  Since `(ring.rotate (n-1))[i] = ring[(i+n-1) % n]
= ring[(i-1) % n]` (Python `%` on `-1` gives `n-1`), this list is exactly
`ring.zip (ring.rotate (n-1))`. -/
def polyEdges (ring : List Pt) : List (Pt × Pt) :=
  ring.zip (ring.rotate (ring.length - 1))

/-- Model of `_point_in_polygon` (lines 129-143): rings with fewer than 3 vertices are
rejected; otherwise the `inside` flag starts `False` and is toggled once per
crossing edge. -/
def pointInPolygon (lat lon : ℚ) (ring : List Pt) : Bool :=
  if ring.length < 3 then false
  else
    (polyEdges ring).foldl
      (fun inside e => if edgeCross lat lon e.1 e.2 then !inside else inside) false

/-- The squared planar distance underlying `_dist_m` (lines 146-150):
`dy = (lat2-lat1)*111000`, `dx = (lon2-lon1)*111000`, distance
`sqrt (dx*dx + dy*dy)`. -/
def distSqM (lat1 lon1 lat2 lon2 : ℚ) : ℚ :=
  let dy := (lat2 - lat1) * 111000
  let dx := (lon2 - lon1) * 111000
  dx * dx + dy * dy

/-- Square-root-free embedding of `_dist_m(...) <= r`: for a nonnegative
squared distance `s`, `sqrt s ≤ r ↔ 0 ≤ r ∧ s ≤ r * r`. -/
def sqrtLe (s r : ℚ) : Bool :=
  decide (0 ≤ r ∧ s ≤ r * r)

/-- The per-zone test of the inner loop of `cross_units_local`
(lines 342-354).  The `continue` runs only when a test *matches*, so the
circle test runs both when the zone has no (truthy) polygon and when the
polygon test failed. -/
def zoneHit (lat lon : ℚ) (g : Zone) : Bool :=
  let circle :=
    if g.center.isSome && truthyQ g.radius then
      sqrtLe (distSqM lat lon (g.center.getD ⟨0, 0⟩).lat (g.center.getD ⟨0, 0⟩).lon)
        (g.radius.getD 0)
    else false
  if truthyList g.points then
    if pointInPolygon lat lon (g.points.getD []) then true else circle
  else circle

/-- A unit as consumed by `cross_units_local`: id with optional position.
`int(g["id"])` in the hit list and `u["id"]` as result key presuppose integer
ids, so unit ids are modelled as integers. -/
structure MUnit where
  id : Int
  lat : Option ℚ
  lon : Option ℚ
deriving DecidableEq, Repr

/-- Model of `int(g["id"])` on a normalized zone (assumes the id is present). -/
def zoneIdInt (g : Zone) : Int :=
  g.id.getD 0

/-- The `hits` list collected for one positioned unit against the zones of
one resource, in zone listing order (lines 341-354). -/
def unitHits (lat lon : ℚ) (geos : List Zone) : List Int :=
  geos.filterMap fun g => if zoneHit lat lon g then some (zoneIdInt g) else none

/-- The per-unit body of the loop in `cross_units_local` (lines 335-357):
units without both coordinates are skipped (`continue`), and a unit is
recorded only when its hit list is nonempty (`if hits:`, line 356). -/
def unitEntry (geos : List Zone) (u : MUnit) : Option (Int × List Int) :=
  match u.lat, u.lon with
  | some la, some lo =>
      let hits := unitHits la lo geos
      if hits.isEmpty then none else some (u.id, hits)
  | _, _ => none

/-- Model of the outer loop of `cross_units_local` (lines 329-359): each
resource is given as its id paired with its (already normalized) zone list,
mirroring `resource_geos[rid] = geofences_of_resource(rid)["geofences"]`; an
entry `result[str(rid)] = {}` is created for every resource (line 334). -/
def crossUnitsLocal (units : List MUnit) (resources : List (Int × List Zone)) :
    List (Int × List (Int × List Int)) :=
  resources.map fun rg => (rg.1, units.filterMap (unitEntry rg.2))

/-! ### Session and remote-call layer

`requests` responses are modelled as explicit values: `LoginResp` is the
response to the `token/login` GET of `_login_with_token`, `WResp` the response
to a data GET of `wialon_call`.  `HTTPException(status, detail)` is `HErr`.
`time.time()` is passed in as `now` (one reading per `_ensure_sid` entry). -/

/-- Model of `HTTPException(status_code, detail)`. -/
structure HErr where
  status : Nat
  detail : String
deriving DecidableEq, Repr

/-- The response of the `token/login` request: HTTP success flag and status,
the `eid`/`sid` fields of the parsed JSON body, and the textual form of the
body as interpolated into the failure detail string. -/
structure LoginResp where
  ok : Bool
  status : Nat
  eid : Option String
  sid : Option String
  bodyText : String
deriving DecidableEq, Repr

/-- Model of `_login_with_token` (lines 44-61). -/
def loginWithToken (_token : String) (r : LoginResp) : Except HErr String :=
  if !r.ok then .error ⟨502, "token/login HTTP " ++ toString r.status⟩
  else
    -- sid = data.get("eid") or data.get("sid")
    let s := pyOrS r.eid r.sid
    if truthyS s then .ok (s.getD "")
    else .error ⟨400, "token/login falló: " ++ r.bodyText⟩

/-- The module-level session cache: `SESSION_SID` and `SESSION_TS`. -/
structure SState where
  sid : Option String
  ts : ℚ
deriving DecidableEq, Repr

/-- The substring test of line 88:
`"WRONG_PARAMS" in str(e.detail) or "invalid token" in str(e.detail).lower()`. -/
def isPrefixList : List Char → List Char → Bool
  | [], _ => true
  | _ :: _, [] => false
  | a :: as, b :: bs => a == b && isPrefixList as bs

/-- Python `pat in s` on character lists: some suffix of `s` starts with `pat`. -/
def isSubList (pat : List Char) : List Char → Bool
  | [] => isPrefixList pat []
  | b :: bs => isPrefixList pat (b :: bs) || isSubList pat bs

/-- Python `pat in s` on strings. -/
def containsSub (pat s : String) : Bool :=
  isSubList pat.data s.data

/-- Model of Python `str.lower()`: lower-case each character (the markers
compared against are pure ASCII). -/
def lowerStr (s : String) : String :=
  ⟨s.data.map Char.toLower⟩

/-- The "parameter-format error" detection of `_ensure_sid` (line 88). -/
def isParamFormatErr (d : String) : Bool :=
  containsSub "WRONG_PARAMS" d || containsSub "invalid token" (lowerStr d)

/-- Model of `_ensure_sid` (lines 64-92), as a function of the current cache state,
the current time, and the `token/login` response the remote side would give. -/
def ensureSid (token : String) (st : SState) (now : ℚ) (lr : LoginResp) :
    Except HErr (String × SState) :=
  if token = "" then .error ⟨400, "Falta WIALON_TOKEN en entorno"⟩
  else if truthyS st.sid && decide (now - st.ts < 240) then
    .ok (st.sid.getD "", st)
  else
    match loginWithToken token lr with
    | .ok s => .ok (s, ⟨some s, now⟩)
    | .error e =>
        if isParamFormatErr e.detail then .ok (token, ⟨some token, now⟩)
        else .error e

/-- The parsed JSON body of a data response: whether it is a JSON object,
its `error` field, and an opaque tag standing for the rest of the payload. -/
structure JBody where
  isDict : Bool
  error : Option Int
  payload : String
deriving DecidableEq, Repr

/-- A data GET response: HTTP success flag, status, raw text, parsed body. -/
structure WResp where
  ok : Bool
  status : Nat
  text : String
  body : JBody
deriving DecidableEq, Repr

/-- Model of `data.get("error") in (1, 2, 3, 4, 5, 8)` (an absent key is `None`,
which is not in the tuple). -/
def sessionErrCode : Option Int → Bool
  | none => false
  | some v => v == 1 || v == 2 || v == 3 || v == 4 || v == 5 || v == 8

/-- Model of `wialon_call` (lines 95-123).  The environment supplies the `token/login`
response and data response for the first attempt (`lr1`, `r1`) and, should the
retry run, for the second attempt (`lr2`, `r2`), plus the clock readings
`now1`, `now2` of the two `_ensure_sid` entries.  On a session-error code the
cache's sid is cleared (`SESSION_SID = None`; the timestamp is untouched) and
the call is re-issued exactly once, its body returned as is. -/
def wialonCall (token : String) (st : SState) (now1 : ℚ) (lr1 : LoginResp)
    (r1 : WResp) (now2 : ℚ) (lr2 : LoginResp) (r2 : WResp) :
    Except HErr (JBody × SState) :=
  match ensureSid token st now1 lr1 with
  | .error e => .error e
  | .ok (_sid, st1) =>
      if !r1.ok then
        .error ⟨502, "Wialon HTTP " ++ toString r1.status ++ ": " ++ r1.text⟩
      else if r1.body.isDict && sessionErrCode r1.body.error then
        match ensureSid token ⟨none, st1.ts⟩ now2 lr2 with
        | .error e => .error e
        | .ok (_sid2, st2) =>
            if !r2.ok then
              .error ⟨502, "Wialon HTTP " ++ toString r2.status ++ ": " ++ r2.text⟩
            else .ok (r2.body, st2)
      else .ok (r1.body, st1)

/-! ### Helper lemmas on `ensureSid` (shared across claims) -/

/-- A truthy cached sid younger than 240 s is returned as is. -/
lemma ensureSid_hit (token : String) (st : SState) (now : ℚ) (lr : LoginResp)
    (htok : token ≠ "") (s : String) (hs : st.sid = some s) (hne : s ≠ "")
    (hf : now - st.ts < 240) : ensureSid token st now lr = .ok (s, st) := by
  simp [ensureSid, htok, hs, truthyS, hne, hf]

/-- When the cache check fails and the login succeeds, the fresh sid is
cached with the current timestamp and returned. -/
lemma ensureSid_miss_login_ok (token : String) (st : SState) (now : ℚ)
    (lr : LoginResp) (htok : token ≠ "")
    (hmiss : (truthyS st.sid && decide (now - st.ts < 240)) = false)
    (s' : String) (hl : loginWithToken token lr = .ok s') :
    ensureSid token st now lr = .ok (s', ⟨some s', now⟩) := by
  simp [ensureSid, htok, hmiss, hl]

/-! ### Claim C3: the 240-second freshness window of the session cache -/

/-- C3: a cached (truthy) credential obtained at `st.ts` is reused for any
call at `now` with `now - st.ts < 240` (the login exchange is not consulted
and the state is unchanged); when `240 ≤ now - st.ts` a full re-login is
performed instead and the cache is refreshed with the new credential and the
current timestamp. -/
theorem ensure_sid_freshness_window (token : String) (st : SState) (now : ℚ)
    (lr : LoginResp) (htok : token ≠ "") :
    (∀ s, st.sid = some s → s ≠ "" → now - st.ts < 240 →
      ensureSid token st now lr = .ok (s, st)) ∧
    (∀ s', 240 ≤ now - st.ts → loginWithToken token lr = .ok s' →
      ensureSid token st now lr = .ok (s', ⟨some s', now⟩)) := by
  constructor
  · intro s hsid hs hfresh
    exact ensureSid_hit token st now lr htok s hsid hs hfresh
  · intro s' hstale hl
    have hlt : ¬ (now - st.ts < 240) := not_lt.mpr hstale
    exact ensureSid_miss_login_ok token st now lr htok (by simp [hlt]) s' hl

/-- Witness for C3: a credential aged 100 s is reused as is; at exactly 240 s
the cache is stale, the login runs and the cache is refreshed. -/
theorem ensure_sid_freshness_window_witness :
    ensureSid "T" ⟨some "S", 0⟩ 100 ⟨true, 200, none, none, ""⟩ =
      .ok ("S", ⟨some "S", 0⟩) ∧
    ensureSid "T" ⟨some "S", 0⟩ 240 ⟨true, 200, some "N", none, ""⟩ =
      .ok ("N", ⟨some "N", 240⟩) := by
  constructor
  · exact (ensure_sid_freshness_window "T" ⟨some "S", 0⟩ 100 _ (by decide)).1 "S"
      rfl (by decide) (by norm_num)
  · exact (ensure_sid_freshness_window "T" ⟨some "S", 0⟩ 240 _ (by decide)).2 "N"
      (by norm_num) rfl

/-! ### Claim C9: fallback on a parameter-format login failure -/

/-- C9: when no valid cached credential exists and the login exchange fails,
`_ensure_sid` falls back to caching and returning the configured secret
itself exactly when the failure detail is a parameter-format error
(`WRONG_PARAMS` / `invalid token`); any other login failure propagates
unchanged, with no fallback value substituted. -/
theorem ensure_sid_login_failure_fallback (token : String) (st : SState)
    (now : ℚ) (lr : LoginResp) (e : HErr) (htok : token ≠ "")
    (hmiss : (truthyS st.sid && decide (now - st.ts < 240)) = false)
    (hl : loginWithToken token lr = .error e) :
    (isParamFormatErr e.detail = true →
      ensureSid token st now lr = .ok (token, ⟨some token, now⟩)) ∧
    (isParamFormatErr e.detail = false →
      ensureSid token st now lr = .error e) := by
  constructor <;> intro hp <;> simp [ensureSid, htok, hmiss, hl, hp]

/-- Witness for C9: a login rejection whose body mentions `WRONG_PARAMS`
makes the raw secret the session credential; an HTTP-level login failure
(no such marker) propagates. -/
theorem ensure_sid_login_failure_fallback_witness :
    ensureSid "RAW" ⟨none, 0⟩ 0 ⟨true, 200, none, none, "WRONG_PARAMS"⟩ =
      .ok ("RAW", ⟨some "RAW", 0⟩) ∧
    ensureSid "RAW" ⟨none, 0⟩ 0 ⟨false, 500, none, none, ""⟩ =
      .error ⟨502, "token/login HTTP 500"⟩ := by
  constructor
  · exact (ensure_sid_login_failure_fallback "RAW" ⟨none, 0⟩ 0
      ⟨true, 200, none, none, "WRONG_PARAMS"⟩
      ⟨400, "token/login falló: WRONG_PARAMS"⟩ (by decide) (by decide) rfl).1 (by decide)
  · exact (ensure_sid_login_failure_fallback "RAW" ⟨none, 0⟩ 0
      ⟨false, 500, none, none, ""⟩
      ⟨502, "token/login HTTP 500"⟩ (by decide) (by decide) rfl).2 (by decide)

/-! ### Claim C1: one transparent retry on a session-error code -/

/-- C1: when the first response body is a JSON object with an error code in
{1, 2, 3, 4, 5, 8}, `wialon_call` clears the cached sid, obtains a fresh
credential via `_ensure_sid`, and re-issues the call exactly once: whatever
the second attempt produces — its JSON body (of any content, error envelopes
included), an HTTP failure, or a hard login failure — is returned or
propagated with no further retry. -/
theorem wialon_call_session_error_single_retry
    (token : String) (st : SState) (now1 : ℚ) (lr1 : LoginResp) (r1 : WResp)
    (now2 : ℚ) (lr2 : LoginResp) (r2 : WResp) (sid1 : String) (st1 : SState)
    (h0 : ensureSid token st now1 lr1 = .ok (sid1, st1)) (htok : token ≠ "")
    (h1 : r1.ok = true) (hd : r1.body.isDict = true)
    (he : sessionErrCode r1.body.error = true) :
    (∀ s2, loginWithToken token lr2 = .ok s2 →
      (r2.ok = true →
        wialonCall token st now1 lr1 r1 now2 lr2 r2 =
          .ok (r2.body, ⟨some s2, now2⟩)) ∧
      (r2.ok = false →
        wialonCall token st now1 lr1 r1 now2 lr2 r2 =
          .error ⟨502, "Wialon HTTP " ++ toString r2.status ++ ": " ++ r2.text⟩)) ∧
    (∀ e, loginWithToken token lr2 = .error e → isParamFormatErr e.detail = false →
      wialonCall token st now1 lr1 r1 now2 lr2 r2 = .error e) := by
  have hre : ∀ lrx, ensureSid token (⟨none, st1.ts⟩ : SState) now2 lrx =
      match loginWithToken token lrx with
      | .ok s => .ok (s, ⟨some s, now2⟩)
      | .error e =>
          if isParamFormatErr e.detail then .ok (token, ⟨some token, now2⟩)
          else .error e := by
    intro lrx
    simp [ensureSid, htok, truthyS]
  constructor
  · intro s2 hl2
    have h2 : ensureSid token ⟨none, st1.ts⟩ now2 lr2 = .ok (s2, ⟨some s2, now2⟩) := by
      rw [hre, hl2]
    constructor <;> intro hok <;> simp [wialonCall, h0, h1, hd, he, h2, hok]
  · intro e hl2 hp
    have h2 : ensureSid token ⟨none, st1.ts⟩ now2 lr2 = .error e := by
      rw [hre, hl2]; simp [hp]
    simp [wialonCall, h0, h1, hd, he, h2]

/-- Witness for C1: a first response with session-error code 1 triggers one
retry under the freshly logged-in sid `S2`; the retry's body is returned as
is even though it itself carries error code 4 (a session code) — no second
retry happens. -/
theorem wialon_call_session_error_single_retry_witness :
    wialonCall "T" ⟨none, 0⟩ 0 ⟨true, 200, some "S1", none, ""⟩
        ⟨true, 200, "", ⟨true, some 1, "p1"⟩⟩ 5 ⟨true, 200, some "S2", none, ""⟩
        ⟨true, 200, "", ⟨true, some 4, "p2"⟩⟩ =
      .ok (⟨true, some 4, "p2"⟩, ⟨some "S2", 5⟩) := by
  exact ((wialon_call_session_error_single_retry "T" ⟨none, 0⟩ 0
    ⟨true, 200, some "S1", none, ""⟩ ⟨true, 200, "", ⟨true, some 1, "p1"⟩⟩ 5
    ⟨true, 200, some "S2", none, ""⟩ ⟨true, 200, "", ⟨true, some 4, "p2"⟩⟩
    "S1" ⟨some "S1", (0 : ℚ)⟩
    (ensureSid_miss_login_ok "T" ⟨none, 0⟩ 0 ⟨true, 200, some "S1", none, ""⟩
      (by decide) (by simp [truthyS]) "S1" rfl)
    (by decide) rfl rfl rfl).1 "S2" rfl).1 rfl

/-! ### Claim C2: non-session error envelopes -/

/-- Counterexample to C2 as stated: a well-formed JSON error envelope with
code 6 (outside the session-expiry set) does **not** make the call fail with
an upstream service error — `wialon_call` returns the envelope to the caller
as a normal success payload (line 123 `return data`). -/
theorem wialon_call_error_envelope_returned_cex :
    wialonCall "T" ⟨some "S", 0⟩ 10 ⟨true, 200, none, none, ""⟩
        ⟨true, 200, "", ⟨true, some 6, "env"⟩⟩ 0 ⟨true, 200, none, none, ""⟩
        ⟨true, 200, "", ⟨true, none, ""⟩⟩ =
      .ok (⟨true, some 6, "env"⟩, ⟨some "S", 0⟩) := by
  have h0 := ensureSid_hit "T" ⟨some "S", 0⟩ 10 ⟨true, 200, none, none, ""⟩
    (by decide) "S" rfl (by decide) (by norm_num)
  simp [wialonCall, h0, sessionErrCode]

/-- C2 as amended: a response body that is a JSON object with an error code
outside {1, 2, 3, 4, 5, 8} is returned to the caller unchanged as the call's
payload; no error is raised and no retry is performed. -/
theorem wialon_call_nonsession_error_returned
    (token : String) (st : SState) (now1 : ℚ) (lr1 : LoginResp) (r1 : WResp)
    (now2 : ℚ) (lr2 : LoginResp) (r2 : WResp) (sid1 : String) (st1 : SState)
    (e : Int) (h0 : ensureSid token st now1 lr1 = .ok (sid1, st1))
    (h1 : r1.ok = true) (hd : r1.body.isDict = true)
    (he : r1.body.error = some e) (hs : sessionErrCode (some e) = false) :
    wialonCall token st now1 lr1 r1 now2 lr2 r2 = .ok (r1.body, st1) := by
  simp [wialonCall, h0, h1, hd, he, hs]

/-- Witness for the amended C2: error code 7 is outside the session set and
its envelope comes back as the payload. -/
theorem wialon_call_nonsession_error_returned_witness :
    wialonCall "T" ⟨some "S", 0⟩ 10 ⟨true, 200, none, none, ""⟩
        ⟨true, 200, "", ⟨true, some 7, "env7"⟩⟩ 0 ⟨true, 200, none, none, ""⟩
        ⟨true, 200, "", ⟨true, none, ""⟩⟩ =
      .ok (⟨true, some 7, "env7"⟩, ⟨some "S", 0⟩) :=
  wialon_call_nonsession_error_returned "T" ⟨some "S", 0⟩ 10
    ⟨true, 200, none, none, ""⟩ ⟨true, 200, "", ⟨true, some 7, "env7"⟩⟩ 0
    ⟨true, 200, none, none, ""⟩ ⟨true, 200, "", ⟨true, none, ""⟩⟩ "S"
    ⟨some "S", (0 : ℚ)⟩ 7
    (ensureSid_hit "T" ⟨some "S", 0⟩ 10 ⟨true, 200, none, none, ""⟩
      (by decide) "S" rfl (by decide) (by norm_num))
    rfl rfl rfl rfl

/-! ### Helper lemmas on zones and the crossing (shared across claims) -/

/-- Unfolding membership in a unit's hit list: every recorded id comes from
a zone of the resource that the containment test accepts. -/
lemma mem_unitHits {la lo : ℚ} {geos : List Zone} {h : Int}
    (hh : h ∈ unitHits la lo geos) :
    ∃ g ∈ geos, zoneHit la lo g = true ∧ zoneIdInt g = h := by
  rw [unitHits, List.mem_filterMap] at hh
  obtain ⟨g, hg, hcond⟩ := hh
  by_cases hz : zoneHit la lo g = true
  · rw [if_pos hz] at hcond
    exact ⟨g, hg, hz, Option.some.inj hcond⟩
  · rw [if_neg hz] at hcond
    cases hcond

/-- Inversion of `unitEntry`: a recorded unit has a known position and a
nonempty hit list. -/
lemma unitEntry_eq_some {geos : List Zone} {u : MUnit} {p : Int × List Int}
    (hf : unitEntry geos u = some p) :
    ∃ la lo, u.lat = some la ∧ u.lon = some lo ∧
      p = (u.id, unitHits la lo geos) ∧ unitHits la lo geos ≠ [] := by
  unfold unitEntry at hf
  cases hla : u.lat with
  | none => rw [hla] at hf; cases hf
  | some la =>
    cases hlo : u.lon with
    | none => rw [hla, hlo] at hf; cases hf
    | some lo =>
      rw [hla, hlo] at hf
      simp only [] at hf
      by_cases hemp : (unitHits la lo geos).isEmpty = true
      · rw [if_pos hemp] at hf; cases hf
      · rw [if_neg hemp] at hf
        refine ⟨la, lo, rfl, rfl, (Option.some.inj hf).symm, ?_⟩
        simpa using hemp

/-! ### Claim C7: legacy polygon fallback with coordinate swap -/

/-- C7: when the nested `jp["points"]` list is not (truthily) present,
normalization falls back to the legacy flat list `z["p"]` and swaps each
entry — `{x, y}` or `[x, y]` becomes `{lat: y, lon: x}` (`legacyToPt`);
whenever a nonempty nested points list is present it takes precedence over
the legacy list. -/
theorem normalize_zone_polygon_sources (z : RawZone) :
    (∀ ps, truthyList (jpOf z).points = false → z.p = some ps → ps ≠ [] →
      (normalizeZone z).points = some (ps.map legacyToPt)) ∧
    (∀ ps, (jpOf z).points = some ps → ps ≠ [] →
      (normalizeZone z).points = some (ps.map fun p => (⟨p.lat, p.lon⟩ : Pt))) := by
  constructor
  · intro ps hjp hp hne
    have ht : truthyList (some ps) = true := by simp [truthyList, hne]
    simp [normalizeZone, hjp, hp, ht]
  · intro ps hjp hne
    have ht : truthyList (some ps) = true := by simp [truthyList, hne]
    simp [normalizeZone, hjp, ht]

/-- Witness for C7: the legacy entry `{x: 10, y: 20}` yields
`{lat: 20, lon: 10}`; with a nested list also present, the nested list wins. -/
theorem normalize_zone_polygon_sources_witness :
    (normalizeZone ⟨none, none, none, none, none, none, none,
        some [LegacyPt.xy 10 20], none, none⟩).points = some [⟨20, 10⟩] ∧
    (normalizeZone ⟨none, none, none, none, none, none,
        some ⟨some [⟨1, 2⟩], none, none, none⟩,
        some [LegacyPt.xy 10 20], none, none⟩).points = some [⟨1, 2⟩] := by
  constructor
  · have h := (normalize_zone_polygon_sources ⟨none, none, none, none, none,
      none, none, some [LegacyPt.xy 10 20], none, none⟩).1
      [LegacyPt.xy 10 20] rfl rfl (by decide)
    simpa [legacyToPt] using h
  · have h := (normalize_zone_polygon_sources ⟨none, none, none, none, none,
      none, some ⟨some [⟨1, 2⟩], none, none, none⟩,
      some [LegacyPt.xy 10 20], none, none⟩).2 [⟨1, 2⟩] rfl (by decide)
    simpa using h

/-! ### Claim C10: zero radius or falsy center yields no circle geometry -/

/-- C10: when neither circle source is truthy — i.e. the nested pair fails
(`center` absent or `radius` falsy, `0` included) and so does the legacy
pair (`ct` absent or `r` falsy) — the normalized zone has neither center nor
radius; if the zone also has no (truthy) polygon, the crossing never matches
any unit against it, wherever the unit is (the intended center included). -/
theorem zone_no_truthy_circle_never_matches (z : RawZone)
    (hjp : ((jpOf z).center.isSome && truthyQ (jpOf z).radius) = false)
    (hleg : (z.ct.isSome && truthyQ z.r) = false) :
    (normalizeZone z).center = none ∧ (normalizeZone z).radius = none ∧
    (truthyList (normalizeZone z).points = false →
      ∀ lat lon : ℚ, zoneHit lat lon (normalizeZone z) = false) := by
  have hc : (normalizeZone z).center = none := by simp [normalizeZone, hjp, hleg]
  have hr : (normalizeZone z).radius = none := by simp [normalizeZone, hjp, hleg]
  refine ⟨hc, hr, ?_⟩
  intro hpts lat lon
  simp [zoneHit, hpts, hc, hr]

/-- Witness for C10: a zone whose only geometry is a nested circle with
`radius = 0` normalizes with no circle, and a unit placed exactly at the
intended center `(3, 4)` does not match it. -/
theorem zone_no_truthy_circle_never_matches_witness :
    (normalizeZone ⟨some 1, none, none, none, none, none,
        some ⟨none, some ⟨3, 4⟩, some 0, none⟩, none, none, none⟩).center = none ∧
    (normalizeZone ⟨some 1, none, none, none, none, none,
        some ⟨none, some ⟨3, 4⟩, some 0, none⟩, none, none, none⟩).radius = none ∧
    zoneHit 3 4 (normalizeZone ⟨some 1, none, none, none, none, none,
        some ⟨none, some ⟨3, 4⟩, some 0, none⟩, none, none, none⟩) = false := by
  have h := zone_no_truthy_circle_never_matches ⟨some 1, none, none, none,
    none, none, some ⟨none, some ⟨3, 4⟩, some 0, none⟩, none, none, none⟩
    (by decide) (by decide)
  exact ⟨h.1, h.2.1, h.2.2 (by decide) 3 4⟩

/-! ### Claim C5: a zone carrying both geometries, tested with both -/

/-- Counterexample to C5 as stated: a raw payload supplying a nested polygon
**and** a nested circle normalizes to a zone carrying both geometries, and in
the crossing such a zone is tested with both predicates — here the polygon
test fails at (50, 50) but the circle test then matches, so the zone hits. -/
theorem zone_both_geometries_cex :
    (normalizeZone ⟨some 2, none, none, none, none, none,
        some ⟨some [⟨0, 0⟩, ⟨0, 1⟩, ⟨1, 0⟩], some ⟨50, 50⟩, some 1000, none⟩,
        none, none, none⟩).points.isSome = true ∧
    (normalizeZone ⟨some 2, none, none, none, none, none,
        some ⟨some [⟨0, 0⟩, ⟨0, 1⟩, ⟨1, 0⟩], some ⟨50, 50⟩, some 1000, none⟩,
        none, none, none⟩).center.isSome = true ∧
    (normalizeZone ⟨some 2, none, none, none, none, none,
        some ⟨some [⟨0, 0⟩, ⟨0, 1⟩, ⟨1, 0⟩], some ⟨50, 50⟩, some 1000, none⟩,
        none, none, none⟩).radius.isSome = true ∧
    pointInPolygon 50 50 ((normalizeZone ⟨some 2, none, none, none, none, none,
        some ⟨some [⟨0, 0⟩, ⟨0, 1⟩, ⟨1, 0⟩], some ⟨50, 50⟩, some 1000, none⟩,
        none, none, none⟩).points.getD []) = false ∧
    zoneHit 50 50 (normalizeZone ⟨some 2, none, none, none, none, none,
        some ⟨some [⟨0, 0⟩, ⟨0, 1⟩, ⟨1, 0⟩], some ⟨50, 50⟩, some 1000, none⟩,
        none, none, none⟩) = true := by
  refine ⟨by decide, by decide, by decide, ?_, ?_⟩
  · norm_num [normalizeZone, jpOf, truthyList, truthyQ, pointInPolygon,
      polyEdges, edgeCross, List.rotate]
  · norm_num [normalizeZone, jpOf, truthyList, truthyQ, zoneHit, sqrtLe,
      distSqM, pointInPolygon, polyEdges, edgeCross, List.rotate]

/-- C5 as amended: a normalized zone may carry both polygon and circle
geometry when the raw payload supplies both kinds (within each kind the
nested encoding still takes precedence); in the crossing the polygon test
runs first, a polygon match short-circuits the zone, and when the polygon
test does not match the circle test also runs — on zones with polygon
geometry included. -/
theorem zone_geometry_precedence_and_fallthrough :
    (∀ z : RawZone, truthyList (jpOf z).points = true →
      ((jpOf z).center.isSome && truthyQ (jpOf z).radius) = true →
      (normalizeZone z).points.isSome = true ∧
      (normalizeZone z).center = (jpOf z).center ∧
      (normalizeZone z).radius = (jpOf z).radius) ∧
    (∀ (lat lon : ℚ) (g : Zone), truthyList g.points = true →
      pointInPolygon lat lon (g.points.getD []) = true →
      zoneHit lat lon g = true) ∧
    (∀ (lat lon : ℚ) (g : Zone), pointInPolygon lat lon (g.points.getD []) = false →
      zoneHit lat lon g =
        ((g.center.isSome && truthyQ g.radius) &&
          sqrtLe (distSqM lat lon (g.center.getD ⟨0, 0⟩).lat
            (g.center.getD ⟨0, 0⟩).lon) (g.radius.getD 0))) := by
  refine ⟨?_, ?_, ?_⟩
  · intro z hpts hcir
    obtain ⟨hcs, hrt⟩ := Bool.and_eq_true_iff.mp hcir
    rcases hcen : (jpOf z).center with _ | c
    · rw [hcen] at hcs; cases hcs
    rcases hrad : (jpOf z).radius with _ | q
    · rw [hrad] at hrt; simp [truthyQ] at hrt
    rw [hcen] at hcs
    rw [hrad] at hrt
    refine ⟨?_, ?_, ?_⟩
    · simp [normalizeZone, hpts]
    · simp [normalizeZone, hcen, hrad, hrt]
    · simp [normalizeZone, hcen, hrad, hrt]
  · intro lat lon g hpts hpip
    simp [zoneHit, hpts, hpip]
  · intro lat lon g hpip
    cases hpts : truthyList g.points <;>
      cases hcc : (g.center.isSome && truthyQ g.radius) <;>
        simp [zoneHit, hpts, hpip, hcc]

/-- Witness for the amended C5: with both nested encodings supplied, both
geometries are carried, the nested circle is the one kept, and a point the
triangle misses is decided by the circle test. -/
theorem zone_geometry_precedence_and_fallthrough_witness :
    (normalizeZone ⟨some 3, none, none, none, none, none,
        some ⟨some [⟨0, 0⟩, ⟨0, 1⟩, ⟨1, 0⟩], some ⟨9, 9⟩, some 7, none⟩,
        none, some ⟨5, 5⟩, some 4⟩).points.isSome = true ∧
    (normalizeZone ⟨some 3, none, none, none, none, none,
        some ⟨some [⟨0, 0⟩, ⟨0, 1⟩, ⟨1, 0⟩], some ⟨9, 9⟩, some 7, none⟩,
        none, some ⟨5, 5⟩, some 4⟩).center = some ⟨9, 9⟩ ∧
    (normalizeZone ⟨some 3, none, none, none, none, none,
        some ⟨some [⟨0, 0⟩, ⟨0, 1⟩, ⟨1, 0⟩], some ⟨9, 9⟩, some 7, none⟩,
        none, some ⟨5, 5⟩, some 4⟩).radius = some 7 := by
  have h := zone_geometry_precedence_and_fallthrough.1
    ⟨some 3, none, none, none, none, none,
      some ⟨some [⟨0, 0⟩, ⟨0, 1⟩, ⟨1, 0⟩], some ⟨9, 9⟩, some 7, none⟩,
      none, some ⟨5, 5⟩, some 4⟩ (by decide) (by decide)
  exact ⟨h.1, h.2.1, h.2.2⟩

/-! ### Claim C4: sparseness of the membership result -/

/-- Counterexample to C4 as stated: a resource with no matching unit (here:
no zones at all) still appears in the result, with an empty per-resource
mapping — `result[str(rid)] = {}` is created unconditionally (line 334). -/
theorem cross_units_empty_resource_entry_cex :
    crossUnitsLocal [⟨7, some 0, some 0⟩] [(5, [])] = [(5, [])] := by
  rfl

/-- C4 as amended: unit entries are sparse — a unit id appears under a
resource only with a nonempty hit list, each listed unit has a known
position, and every recorded zone id comes from a zone of that resource that
contains the unit's position — but the result carries an entry for **every**
queried resource, empty when no unit matched. -/
theorem cross_units_local_sparse_units (units : List MUnit)
    (rs : List (Int × List Zone)) :
    (crossUnitsLocal units rs).map Prod.fst = rs.map Prod.fst ∧
    ∀ x ∈ crossUnitsLocal units rs, ∃ geos, (x.1, geos) ∈ rs ∧
      ∀ p ∈ x.2, p.2 ≠ [] ∧ ∃ u ∈ units, u.id = p.1 ∧ ∃ la lo,
        u.lat = some la ∧ u.lon = some lo ∧ p.2 = unitHits la lo geos ∧
        ∀ h ∈ p.2, ∃ g ∈ geos, zoneHit la lo g = true ∧ zoneIdInt g = h := by
  constructor
  · simp [crossUnitsLocal]
  · intro x hx
    rw [crossUnitsLocal, List.mem_map] at hx
    obtain ⟨rg, hrg, rfl⟩ := hx
    refine ⟨rg.2, by simpa using hrg, ?_⟩
    intro p hp
    rw [List.mem_filterMap] at hp
    obtain ⟨u, hu, hf⟩ := hp
    obtain ⟨la, lo, hla, hlo, rfl, hne⟩ := unitEntry_eq_some hf
    refine ⟨hne, u, hu, rfl, la, lo, hla, hlo, rfl, ?_⟩
    intro h hh
    exact mem_unitHits hh

/-- Witness for the amended C4: on a concrete query the resource keys of the
result are exactly the queried resource ids. -/
theorem cross_units_local_sparse_units_witness :
    (crossUnitsLocal [⟨7, some 1, some 1⟩] [(8, [])]).map Prod.fst =
      [(8 : Int)] := by
  have h := (cross_units_local_sparse_units [⟨7, some 1, some 1⟩] [(8, [])]).1
  simpa using h

/-! ### Claim C6: there is no `max_units` cap -/

/-- Counterexample to C6 as stated: the crossing accepts no unit cap — with
two units both inside the single circle zone, both are tested and both are
reported; no prefix truncation of the unit list can occur, so the claimed
`max_units = 1` behaviour (only the first unit tested) is violated. -/
theorem cross_units_local_no_cap_cex :
    crossUnitsLocal [⟨1, some 0, some 0⟩, ⟨2, some 0, some 0⟩]
        [(5, [⟨some 9, "", none, none, none, some ⟨0, 0⟩, some 1⟩])] =
      [(5, [(1, [9]), (2, [9])])] := by
  norm_num [crossUnitsLocal, unitEntry, unitHits, zoneHit, truthyList,
    truthyQ, sqrtLe, distSqM, zoneIdInt, List.filterMap_cons]
  all_goals decide

/-- C6 as amended: `cross_units_local` takes no `max_units` parameter and
applies no truncation — every unit of the list with a known position and a
nonempty hit list appears in the result, regardless of its position in the
listing order. -/
theorem cross_units_local_no_cap (units : List MUnit) (rid : Int)
    (geos : List Zone) (u : MUnit) (hu : u ∈ units) (la lo : ℚ)
    (hla : u.lat = some la) (hlo : u.lon = some lo)
    (hh : unitHits la lo geos ≠ []) :
    ∃ m, crossUnitsLocal units [(rid, geos)] = [(rid, m)] ∧
      (u.id, unitHits la lo geos) ∈ m := by
  refine ⟨units.filterMap (unitEntry geos), rfl, ?_⟩
  apply List.mem_filterMap.mpr
  refine ⟨u, hu, ?_⟩
  have he : (unitHits la lo geos).isEmpty = false := by simpa using hh
  simp [unitEntry, hla, hlo, he]

/-- Witness for the amended C6: the second unit of the list is tested and
reported. -/
theorem cross_units_local_no_cap_witness :
    ∃ m, crossUnitsLocal [⟨1, some 0, some 0⟩, ⟨2, some 3, some 3⟩]
        [(6, [⟨some 9, "", none, none, none, some ⟨3, 3⟩, some 1⟩])] =
      [(6, m)] ∧
      ((2 : Int), unitHits 3 3 [⟨some 9, "", none, none, none,
        some ⟨3, 3⟩, some 1⟩]) ∈ m := by
  exact cross_units_local_no_cap [⟨1, some 0, some 0⟩, ⟨2, some 3, some 3⟩] 6
    [⟨some 9, "", none, none, none, some ⟨3, 3⟩, some 1⟩] ⟨2, some 3, some 3⟩
    (by simp) 3 3 rfl rfl
    (by
      norm_num [unitHits, zoneHit, truthyList, truthyQ, sqrtLe, distSqM,
        List.filterMap_cons])

/-! ### Claim C8: invariance of the ray-casting test

The ray-casting loop toggles a flag once per crossing edge, i.e. it computes
the parity of the number of crossing edges.  The edge test is symmetric in
its two endpoints (for a straddling edge the interpolated longitude is the
same from either end; for a non-straddling edge both orientations fail), and
rotating or reversing the ring permutes its edge set, so the parity — and
with it the result — is unchanged. -/

/-- Parity helper: appending one more element flips the oddness test of a
count exactly when the element is counted. -/
lemma succ_mod_two_beq (c : ℕ) : ((c + 1) % 2 == 1) = !(c % 2 == 1) := by
  rcases Nat.mod_two_eq_zero_or_one c with h | h <;> simp [Nat.add_mod, h]

/-- A fold that toggles a flag per satisfying element computes the parity of
the count. -/
lemma foldl_toggle {α : Type} (p : α → Bool) (l : List α) :
    ∀ b : Bool,
      l.foldl (fun inside e => if p e then !inside else inside) b =
        (b != (l.countP p % 2 == 1)) := by
  induction l with
  | nil => intro b; simp
  | cons a l ih =>
    intro b
    rw [List.foldl_cons, ih, List.countP_cons]
    cases hpa : p a
    · simp [hpa]
    · simp only [hpa, if_true]
      rw [succ_mod_two_beq]
      cases b <;> cases hml : (l.countP p % 2 == 1) <;> simp

/-- The ray-casting result is the parity of the crossing-edge count. -/
lemma pip_eq_parity (lat lon : ℚ) (ring : List Pt) :
    pointInPolygon lat lon ring =
      if ring.length < 3 then false
      else ((polyEdges ring).countP (fun e => edgeCross lat lon e.1 e.2) % 2 == 1) := by
  unfold pointInPolygon
  by_cases h3 : ring.length < 3
  · simp [h3]
  · simp only [h3, if_neg, if_false]
    rw [foldl_toggle]
    simp

/-- Dropping commutes with zipping. -/
lemma drop_zip {α β : Type} (k : ℕ) (l : List α) (m : List β) :
    (l.zip m).drop k = (l.drop k).zip (m.drop k) := by
  simp [List.zip_eq_zipWith, List.drop_zipWith]

/-- Taking commutes with zipping. -/
lemma take_zip {α β : Type} (k : ℕ) (l : List α) (m : List β) :
    (l.zip m).take k = (l.take k).zip (m.take k) := by
  simp [List.zip_eq_zipWith, List.take_zipWith]

/-- Zipping two equally long lists rotated by the same amount permutes the
zip of the originals. -/
lemma zip_rotate_perm {α β : Type} (l : List α) (m : List β)
    (h : l.length = m.length) (k : ℕ) :
    ((l.rotate k).zip (m.rotate k)).Perm (l.zip m) := by
  rcases Nat.eq_zero_or_pos l.length with h0 | hpos
  · have hl : l = [] := List.length_eq_zero.mp h0
    have hm : m = [] := List.length_eq_zero.mp (by rw [← h]; exact h0)
    subst hl; subst hm
    simp
  · have hkl : k % l.length ≤ l.length := le_of_lt (Nat.mod_lt _ hpos)
    have hkm : k % l.length ≤ m.length := h ▸ hkl
    have hrl : l.rotate k = l.drop (k % l.length) ++ l.take (k % l.length) := by
      rw [← List.rotate_mod, List.rotate_eq_drop_append_take hkl]
    have hrm : m.rotate k = m.drop (k % l.length) ++ m.take (k % l.length) := by
      have hmm : m.rotate k = m.rotate (k % l.length) := by
        rw [h, List.rotate_mod]
      rw [hmm, List.rotate_eq_drop_append_take hkm]
    rw [hrl, hrm, List.zip_append (by simp [h]), ← drop_zip, ← take_zip]
    have hzlen : k % l.length ≤ (l.zip m).length := by
      rw [List.length_zip, ← h, Nat.min_self]
      exact hkl
    rw [← List.rotate_eq_drop_append_take hzlen]
    exact List.rotate_perm _ _

/-- Rotating the ring permutes its edge list. -/
lemma polyEdges_rotate_perm (ring : List Pt) (k : ℕ) :
    (polyEdges (ring.rotate k)).Perm (polyEdges ring) := by
  unfold polyEdges
  rw [List.length_rotate, List.rotate_rotate, Nat.add_comm, ← List.rotate_rotate]
  exact zip_rotate_perm ring (ring.rotate (ring.length - 1))
    (by rw [List.length_rotate]) k

/-- C8, rotation half (as a lemma): the ray-casting test is invariant under
cyclic rotation of the ring. -/
lemma pip_rotate (lat lon : ℚ) (ring : List Pt) (k : ℕ) :
    pointInPolygon lat lon (ring.rotate k) = pointInPolygon lat lon ring := by
  rw [pip_eq_parity, pip_eq_parity, List.length_rotate]
  by_cases h3 : ring.length < 3
  · simp [h3]
  · simp only [h3, if_neg, if_false]
    rw [(polyEdges_rotate_perm ring k).countP_eq]

/-- The interpolated longitude of an edge at a given latitude is the same
computed from either endpoint. -/
lemma interp_symm (lat xi yi xj yj : ℚ) (h : yj - yi ≠ 0) :
    (xj - xi) * (lat - yi) / (yj - yi) + xi =
      (xi - xj) * (lat - yj) / (yi - yj) + xj := by
  have h2 : yi - yj ≠ 0 := fun hh => h (by linarith)
  field_simp
  ring

/-- The edge test does not depend on the orientation of the edge. -/
lemma edgeCross_symm (lat lon : ℚ) (a b : Pt) :
    edgeCross lat lon a b = edgeCross lat lon b a := by
  unfold edgeCross
  by_cases hab : a.lat = b.lat
  · rw [hab]
    simp
  · have h1 : ¬(b.lat - a.lat = 0) := sub_ne_zero.mpr (Ne.symm hab)
    have h2 : ¬(a.lat - b.lat = 0) := sub_ne_zero.mpr hab
    rw [if_neg h1, if_neg h2, interp_symm lat a.lon a.lat b.lon b.lat h1]
    cases hda : decide (a.lat > lat) <;> cases hdb : decide (b.lat > lat) <;> simp

/-- Reversing commutes with zipping for equally long lists. -/
lemma zip_reverse {α β : Type} :
    ∀ (l : List α) (m : List β), l.length = m.length →
      (l.reverse).zip (m.reverse) = (l.zip m).reverse := by
  intro l
  induction l with
  | nil =>
    intro m h
    have : m = [] := List.length_eq_zero.mp (by rw [← h]; rfl)
    subst this
    rfl
  | cons a l ih =>
    intro m h
    cases m with
    | nil => cases h
    | cons b m' =>
      have h' : l.length = m'.length := by simpa using h
      rw [List.reverse_cons, List.reverse_cons, List.zip_append (by simp [h']),
        ih m' h']
      simp

/-- The edge list of the reversed ring is the reversed zip of the ring with
its 1-rotation. -/
lemma polyEdges_reverse (ring : List Pt) (h2 : 2 ≤ ring.length) :
    polyEdges ring.reverse = (ring.zip (ring.rotate 1)).reverse := by
  unfold polyEdges
  rw [List.length_reverse]
  have hm : ring.length - (ring.length - 1) % ring.length = 1 := by
    have h1 : (ring.length - 1) % ring.length = ring.length - 1 :=
      Nat.mod_eq_of_lt (by omega)
    omega
  rw [List.rotate_reverse, hm]
  exact zip_reverse ring (ring.rotate 1) (by rw [List.length_rotate])

/-- C8, reversal half (as a lemma): the ray-casting test is invariant under
reversal of the ring's winding direction. -/
lemma pip_reverse (lat lon : ℚ) (ring : List Pt) :
    pointInPolygon lat lon ring.reverse = pointInPolygon lat lon ring := by
  rw [pip_eq_parity, pip_eq_parity, List.length_reverse]
  by_cases h3 : ring.length < 3
  · simp [h3]
  · simp only [h3, if_neg, if_false]
    have h2 : 2 ≤ ring.length := by omega
    rw [polyEdges_reverse ring h2, List.countP_reverse, ← List.zip_swap,
      List.countP_map]
    have hcg : ((ring.rotate 1).zip ring).countP
        ((fun e => edgeCross lat lon e.1 e.2) ∘ Prod.swap) =
        ((ring.rotate 1).zip ring).countP (fun e => edgeCross lat lon e.1 e.2) := by
      apply List.countP_congr
      intro x _
      simp only [Function.comp, Prod.fst_swap, Prod.snd_swap]
      rw [edgeCross_symm lat lon x.2 x.1]
    rw [hcg]
    have hperm := zip_rotate_perm (ring.rotate 1) ring
      (by rw [List.length_rotate]) (ring.length - 1)
    rw [List.rotate_rotate] at hperm
    have hn : 1 + (ring.length - 1) = ring.length := by omega
    rw [hn, List.rotate_length] at hperm
    rw [← hperm.countP_eq]
    rfl

/-- C8: `pointInPolygon` returns the same boolean on any cyclic rotation of
the ring's vertex sequence and on the reversed (winding-flipped) ring. -/
theorem point_in_polygon_rotation_reversal (lat lon : ℚ) (ring : List Pt) (k : ℕ) :
    pointInPolygon lat lon (ring.rotate k) = pointInPolygon lat lon ring ∧
    pointInPolygon lat lon ring.reverse = pointInPolygon lat lon ring :=
  ⟨pip_rotate lat lon ring k, pip_reverse lat lon ring⟩

end Wialon
